import Mathlib

/-!
Verification of the test-case generation and execution engine of the
AI-assisted API testing service (source modules `backend/v3.py` and
`backend/backend.py`).

The embedding is shallow: Python dictionaries holding JSON-like data become
the inductive `Json`; Python's arbitrary-precision integers become `Int`/`Nat`.
Where the source multiplies an integer by a float literal and truncates
(`int(num * 0.25)`, `int(num * 0.2)`, `int(num * 0.15)`, `int(num * 0.8)`,
`len >= num * 0.7`), the embedding uses the exact natural-number divisions
`num / 4`, `num / 5`, `3 * num / 20`, `4 * num / 5` and `10 * len ≥ 7 * num`;
these agree with IEEE-754 double evaluation for every count in the program's
range (checked exhaustively far beyond the 1..50 / 1..40 counts the code can
pass to them).  Wall-clock items (timestamps, latencies, sleeps) and log text
previews are outside the model and are elided from records; no verified
property mentions them.
-/

/-- A Python `float` as `json.loads` produces it (the default parser accepts
`NaN`, `Infinity` and `-Infinity`): `nan`, the two infinities, or a finite
double, modelled by its exact rational value.  What matters to the verified
code is `==`/`!=` and `isinstance`, and the one semantic quirk the diff
engine inherits: `nan != nan` is `True`. -/
inductive PyFloat where
  | nan : PyFloat
  | inf : PyFloat
  | negInf : PyFloat
  | val (q : ℚ) : PyFloat
deriving Repr, DecidableEq

/-- Python `==` on two floats: `nan` is unequal to everything, itself
included; infinities and finite values compare structurally. -/
def pyFloatEq : PyFloat → PyFloat → Bool
  | .nan, _ => false
  | _, .nan => false
  | .inf, .inf => true
  | .negInf, .negInf => true
  | .val a, .val b => a == b
  | _, _ => false

theorem pyFloatEq_refl (f : PyFloat) (h : f ≠ PyFloat.nan) :
    pyFloatEq f f = true := by
  cases f <;> simp_all [pyFloatEq]

/-- JSON-like structured values as produced by `json.loads` /
`response.json()`.  `num` is a Python `int`, `float` a Python float — two
distinct runtime types (`type(1) != type(1.0)`, `isinstance(1.0, int)` is
`False`).  Cross-type numeric equality (`1 == 1.0` in Python) is not
modelled; no verified property compares an `int` with a `float`. -/
inductive Json where
  | null : Json
  | bool (b : Bool) : Json
  | num (n : Int) : Json
  | float (f : PyFloat) : Json
  | str (s : String) : Json
  | arr (items : List Json) : Json
  | obj (fields : List (String × Json)) : Json
deriving Repr

/-- Python `type(x).__name__` on a decoded JSON value. -/
def Json.pyTypeName : Json → String
  | .null => "NoneType"
  | .bool _ => "bool"
  | .num _ => "int"
  | .float _ => "float"
  | .str _ => "str"
  | .arr _ => "list"
  | .obj _ => "dict"

/-- Python `isinstance(x, str)`. -/
def Json.isInstStr : Json → Bool
  | .str _ => true
  | _ => false

/-- Python `isinstance(x, (int, float))`.  `True` and `False` are instances of
`int` in Python, so booleans satisfy this test. -/
def Json.isInstNumber : Json → Bool
  | .num _ => true
  | .float _ => true
  | .bool _ => true
  | _ => false

/-- Python `isinstance(x, int)`.  Booleans are instances of `int`. -/
def Json.isInstInt : Json → Bool
  | .num _ => true
  | .bool _ => true
  | _ => false

/-- Python `isinstance(x, bool)`. -/
def Json.isInstBool : Json → Bool
  | .bool _ => true
  | _ => false

/-- Python `isinstance(x, dict)`. -/
def Json.isInstDict : Json → Bool
  | .obj _ => true
  | _ => false

/-- Python `isinstance(x, list)`. -/
def Json.isInstList : Json → Bool
  | .arr _ => true
  | _ => false

/-- Python dict membership / subscript: first binding of a key in an object's
field list (a real Python dict never has duplicate keys). -/
def lookupField (fields : List (String × Json)) (k : String) : Option Json :=
  (fields.find? (fun p => p.1 == k)).map (fun p => p.2)

/-- JSON-Schema-like node: a `type` tag plus, for objects, `properties` and
`required` (`backend.py` reads nothing else from a schema node). -/
inductive Schema where
  | mk (ty : Option String) (properties : List (String × Schema))
       (required : List String) : Schema

def Schema.ty : Schema → Option String
  | .mk t _ _ => t

def Schema.properties : Schema → List (String × Schema)
  | .mk _ p _ => p

def Schema.required : Schema → List String
  | .mk _ _ r => r

/-- One entry of the error list built by `validate_against_schema` /
`validate_field` (`backend.py`).  The Python code also embeds a free-text
`message`; it is reproduced without the decorative quote characters. -/
structure SchemaViolation where
  vtype : String
  path : String
  expected : Option String
  actual : Option String
  message : String
deriving Repr, DecidableEq

/-- `backend.py` `validate_field`: single-field primitive-type agreement.
The `elif` chain emits at most one `type_mismatch` and never recurses. -/
def validate_field (value : Json) (schema : Schema) (path : String) :
    List SchemaViolation :=
  let expected_type := schema.ty
  if expected_type == some "string" && !value.isInstStr then
    [⟨"type_mismatch", path, some "string", some value.pyTypeName,
      "Field " ++ path ++ " should be string, got " ++ value.pyTypeName⟩]
  else if expected_type == some "number" && !value.isInstNumber then
    [⟨"type_mismatch", path, some "number", some value.pyTypeName,
      "Field " ++ path ++ " should be number, got " ++ value.pyTypeName⟩]
  else if expected_type == some "integer" && !value.isInstInt then
    [⟨"type_mismatch", path, some "integer", some value.pyTypeName,
      "Field " ++ path ++ " should be integer, got " ++ value.pyTypeName⟩]
  else if expected_type == some "boolean" && !value.isInstBool then
    [⟨"type_mismatch", path, some "boolean", some value.pyTypeName,
      "Field " ++ path ++ " should be boolean, got " ++ value.pyTypeName⟩]
  else if expected_type == some "object" && !value.isInstDict then
    [⟨"type_mismatch", path, some "object", some value.pyTypeName,
      "Field " ++ path ++ " should be object, got " ++ value.pyTypeName⟩]
  else if expected_type == some "array" && !value.isInstList then
    [⟨"type_mismatch", path, some "array", some value.pyTypeName,
      "Field " ++ path ++ " should be array, got " ++ value.pyTypeName⟩]
  else []

/-- `backend.py` `validate_against_schema`: top-level container check,
required-field scan, then per-property `validate_field`.  The defensive
`try`/`except` wrapper of the source cannot fire in the embedding (no
operation in the body raises). -/
def validate_against_schema (data : Json) (schema : Schema) :
    List SchemaViolation :=
  if schema.ty == some "object" then
    match data with
    | .obj fields =>
        ((schema.required.filter (fun f => (lookupField fields f).isNone)).map
          (fun f => ⟨"missing_required_field", f, some f, none,
            "Required field " ++ f ++ " is missing"⟩))
        ++ schema.properties.flatMap (fun p =>
            match lookupField fields p.1 with
            | some v => validate_field v p.2 p.1
            | none => [])
    | _ =>
        [⟨"type_mismatch", "root", some "object", some data.pyTypeName,
          "Expected object, got " ++ data.pyTypeName⟩]
  else if schema.ty == some "array" then
    match data with
    | .arr _ => []
    | _ =>
        [⟨"type_mismatch", "root", some "array", some data.pyTypeName,
          "Expected array, got " ++ data.pyTypeName⟩]
  else []

/-- One entry of the list built by `find_json_differences` (`backend.py`).
The recorded `baseline_value` / `current_value` payloads are elided: no
verified property inspects them, only the located path and the change kind. -/
structure Difference where
  path : String
  change_type : String
deriving Repr, DecidableEq

/-- Path notation of `find_json_differences`: an empty accumulated path is
reported as `root`. -/
def orRoot (path : String) : String :=
  if path == "" then "root" else path

/-- Dotted path extension for mapping keys (`f"{path}.{key}" if path else key`). -/
def joinPath (path key : String) : String :=
  if path == "" then key else path ++ "." ++ key

theorem sizeOf_lookupField {fields : List (String × Json)} {k : String}
    {v : Json} (h : lookupField fields k = some v) : sizeOf v < sizeOf fields := by
  induction fields with
  | nil => simp [lookupField] at h
  | cons p rest ih =>
      simp only [lookupField, List.find?] at h
      rcases p with ⟨pk, pv⟩
      by_cases hk : (pk == k) = true
      · simp [hk] at h
        subst h
        simp
        omega
      · simp [hk] at h
        have := ih (by simpa [lookupField] using h)
        simp
        omega

/-- Scalar equality as applied by the final `baseline != current` branch of
`find_json_differences` (only ever reached on two same-typed scalars).  On
floats it is Python `==`, hence irreflexive at `nan`. -/
def Json.scalarEq : Json → Json → Bool
  | .null, .null => true
  | .bool a, .bool b => a == b
  | .num a, .num b => a == b
  | .float a, .float b => pyFloatEq a b
  | .str a, .str b => a == b
  | _, _ => false

mutual

/-- `backend.py` `find_json_differences`: lock-step recursive deep diff.
Python iterates the key set `set(baseline) | set(current)` in unspecified
order; the embedding fixes the canonical order "baseline keys first (removed
or recursed), then keys only in current (added)", which enumerates the same
union. -/
def find_json_differences (baseline current : Json) (path : String) :
    List Difference :=
  if baseline.pyTypeName ≠ current.pyTypeName then
    [⟨orRoot path, "type_changed"⟩]
  else
    match baseline, current with
    | .obj bs, .obj cs =>
        diffFields bs cs path
        ++ ((cs.filter (fun p => (lookupField bs p.1).isNone)).map
            (fun p => ⟨joinPath path p.1, "added"⟩))
    | .arr bs, .arr cs =>
        if bs.length ≠ cs.length then
          [⟨orRoot path, "array_length_changed"⟩]
        else diffItems bs cs 0 path
    | b, c =>
        if b.scalarEq c then [] else [⟨orRoot path, "value_changed"⟩]
termination_by sizeOf baseline + sizeOf current

/-- The per-baseline-key part of the dict case: a key absent from current is
`removed`, a key present in both recurses. -/
def diffFields (bs cs : List (String × Json)) (path : String) :
    List Difference :=
  match bs with
  | [] => []
  | (k, bv) :: rest =>
      (match h : lookupField cs k with
       | none => [⟨joinPath path k, "removed"⟩]
       | some cv => find_json_differences bv cv (joinPath path k))
      ++ diffFields rest cs path
termination_by sizeOf bs + sizeOf cs
decreasing_by
  all_goals simp_wf
  all_goals try have := sizeOf_lookupField h
  all_goals omega

/-- Index-wise recursion of the equal-length list case
(`for i, (b_item, c_item) in enumerate(zip(baseline, current))`). -/
def diffItems (bs cs : List Json) (i : Nat) (path : String) :
    List Difference :=
  match bs, cs with
  | [], _ => []
  | _ :: _, [] => []
  | b :: bs, c :: cs =>
      find_json_differences b c (path ++ "[" ++ toString i ++ "]")
      ++ diffItems bs cs (i + 1) path
termination_by sizeOf bs + sizeOf cs

end

mutual

/-- Well-formedness of a decoded JSON value: every object level has distinct
keys, as is forced for data that came through a Python `dict`. -/
def Json.wellFormed : Json → Bool
  | .obj fields => (fields.map Prod.fst).Nodup && Json.fieldsWF fields
  | .arr items => Json.itemsWF items
  | _ => true
termination_by j => sizeOf j

/-- All values of an object's fields are well-formed. -/
def Json.fieldsWF : List (String × Json) → Bool
  | [] => true
  | (_, v) :: rest => v.wellFormed && Json.fieldsWF rest
termination_by fs => sizeOf fs

/-- All items of an array are well-formed. -/
def Json.itemsWF : List Json → Bool
  | [] => true
  | v :: rest => v.wellFormed && Json.itemsWF rest
termination_by xs => sizeOf xs

end

mutual

/-- No `NaN` float scalar anywhere in the value.  `json.loads` does parse
`NaN`, and on such a scalar Python's `x != x` is `True`, which makes the
diff engine's equal-scalar branch report a difference. -/
def Json.noNaN : Json → Bool
  | .null => true
  | .bool _ => true
  | .num _ => true
  | .float f => f != PyFloat.nan
  | .str _ => true
  | .arr items => Json.itemsNoNaN items
  | .obj fields => Json.fieldsNoNaN fields
termination_by j => sizeOf j

/-- No field value contains a `NaN`. -/
def Json.fieldsNoNaN : List (String × Json) → Bool
  | [] => true
  | (_, v) :: rest => v.noNaN && Json.fieldsNoNaN rest
termination_by fs => sizeOf fs

/-- No array item contains a `NaN`. -/
def Json.itemsNoNaN : List Json → Bool
  | [] => true
  | v :: rest => v.noNaN && Json.itemsNoNaN rest
termination_by xs => sizeOf xs

end

theorem lookupField_eq_of_nodup {fs : List (String × Json)}
    (hnd : (fs.map Prod.fst).Nodup) {k : String} {v : Json}
    (h : (k, v) ∈ fs) : lookupField fs k = some v := by
  induction fs with
  | nil => simp at h
  | cons p rest ih =>
      rcases p with ⟨pk, pv⟩
      simp only [List.map_cons, List.nodup_cons] at hnd
      rcases List.mem_cons.1 h with heq | hmem
      · cases heq
        simp [lookupField, List.find?]
      · have hne : pk ≠ k := by
          intro hkk
          exact hnd.1 (hkk ▸ (List.mem_map.2 ⟨(k, v), hmem, rfl⟩))
        have := ih hnd.2 hmem
        simpa [lookupField, List.find?, beq_eq_false_iff_ne.2 hne]
          using this

theorem fieldsWF_mem {fs : List (String × Json)} (h : Json.fieldsWF fs = true)
    {k : String} {v : Json} (hm : (k, v) ∈ fs) : v.wellFormed = true := by
  induction fs with
  | nil => simp at hm
  | cons p rest ih =>
      rcases p with ⟨pk, pv⟩
      rw [Json.fieldsWF] at h
      simp only [Bool.and_eq_true] at h
      rcases List.mem_cons.1 hm with heq | hmem
      · cases heq
        exact h.1
      · exact ih h.2 hmem

theorem itemsWF_mem {xs : List Json} (h : Json.itemsWF xs = true)
    {v : Json} (hm : v ∈ xs) : v.wellFormed = true := by
  induction xs with
  | nil => simp at hm
  | cons x rest ih =>
      rw [Json.itemsWF] at h
      simp only [Bool.and_eq_true] at h
      rcases List.mem_cons.1 hm with heq | hmem
      · cases heq
        exact h.1
      · exact ih h.2 hmem

theorem fieldsNoNaN_mem {fs : List (String × Json)}
    (h : Json.fieldsNoNaN fs = true) {k : String} {v : Json}
    (hm : (k, v) ∈ fs) : v.noNaN = true := by
  induction fs with
  | nil => simp at hm
  | cons p rest ih =>
      rcases p with ⟨pk, pv⟩
      rw [Json.fieldsNoNaN] at h
      simp only [Bool.and_eq_true] at h
      rcases List.mem_cons.1 hm with heq | hmem
      · cases heq
        exact h.1
      · exact ih h.2 hmem

theorem itemsNoNaN_mem {xs : List Json} (h : Json.itemsNoNaN xs = true)
    {v : Json} (hm : v ∈ xs) : v.noNaN = true := by
  induction xs with
  | nil => simp at hm
  | cons x rest ih =>
      rw [Json.itemsNoNaN] at h
      simp only [Bool.and_eq_true] at h
      rcases List.mem_cons.1 hm with heq | hmem
      · cases heq
        exact h.1
      · exact ih h.2 hmem

theorem diffItems_self {n : Nat}
    (ih : ∀ Y : Json, sizeOf Y ≤ n → Y.wellFormed = true → Y.noNaN = true →
      ∀ p, find_json_differences Y Y p = []) :
    ∀ (bs : List Json) (i : Nat) (path : String),
      (∀ v ∈ bs, sizeOf v ≤ n) → Json.itemsWF bs = true →
      Json.itemsNoNaN bs = true →
      diffItems bs bs i path = [] := by
  intro bs
  induction bs with
  | nil => intro i path _ _ _; rw [diffItems]
  | cons b rest ihl =>
      intro i path hsz hwf hnn
      rw [Json.itemsWF] at hwf
      rw [Json.itemsNoNaN] at hnn
      simp only [Bool.and_eq_true] at hwf hnn
      rw [diffItems]
      rw [ih b (hsz b (by simp)) hwf.1 hnn.1,
        ihl (i + 1) path (fun v hv => hsz v (by simp [hv])) hwf.2 hnn.2]
      rfl

theorem diffFields_self {n : Nat}
    (ih : ∀ Y : Json, sizeOf Y ≤ n → Y.wellFormed = true → Y.noNaN = true →
      ∀ p, find_json_differences Y Y p = []) :
    ∀ (bs full : List (String × Json)) (path : String),
      (∀ k v, (k, v) ∈ bs → lookupField full k = some v) →
      (∀ k v, (k, v) ∈ bs →
        sizeOf v ≤ n ∧ v.wellFormed = true ∧ v.noNaN = true) →
      diffFields bs full path = [] := by
  intro bs
  induction bs with
  | nil => intro full path _ _; rw [diffFields]
  | cons p rest ihl =>
      rcases p with ⟨k, bv⟩
      intro full path hlk hv
      rw [diffFields]
      have hfound := hlk k bv (by simp)
      have hrest : diffFields rest full path = [] :=
        ihl full path (fun k' v' hm => hlk k' v' (by simp [hm]))
          (fun k' v' hm => hv k' v' (by simp [hm]))
      rw [hrest]
      split
      · next heq => rw [hfound] at heq; cases heq
      · next cv heq =>
          rw [hfound] at heq
          cases heq
          have ⟨hsz, hwf, hnn⟩ := hv k bv (by simp)
          simp [ih bv hsz hwf hnn]

theorem find_json_differences_self_aux :
    ∀ (n : Nat) (X : Json), sizeOf X ≤ n → X.wellFormed = true →
      X.noNaN = true → ∀ path, find_json_differences X X path = [] := by
  intro n
  induction n with
  | zero =>
      intro X hX
      exact absurd hX (by cases X <;> simp)
  | succ n ih =>
      intro X hX hwf hnn path
      cases X with
      | null =>
          rw [find_json_differences] <;> simp [Json.pyTypeName, Json.scalarEq]
      | bool b =>
          rw [find_json_differences] <;> simp [Json.pyTypeName, Json.scalarEq]
      | num v =>
          rw [find_json_differences] <;> simp [Json.pyTypeName, Json.scalarEq]
      | float f =>
          rw [Json.noNaN] at hnn
          have hne : f ≠ PyFloat.nan := by simpa using hnn
          rw [find_json_differences] <;>
            simp [Json.pyTypeName, Json.scalarEq, pyFloatEq_refl f hne]
      | str s =>
          rw [find_json_differences] <;> simp [Json.pyTypeName, Json.scalarEq]
      | arr items =>
          rw [Json.wellFormed] at hwf
          rw [Json.noNaN] at hnn
          rw [find_json_differences]
          simp only [Json.pyTypeName, ne_eq, not_true_eq_false, if_false]
          have hsz : ∀ v ∈ items, sizeOf v ≤ n := by
            intro v hv
            have h1 := List.sizeOf_lt_of_mem hv
            have h2 : sizeOf (Json.arr items) = 1 + sizeOf items := by simp
            omega
          simp [diffItems_self ih items 0 path hsz hwf hnn]
      | obj fields =>
          rw [Json.wellFormed] at hwf
          rw [Json.noNaN] at hnn
          simp only [Bool.and_eq_true] at hwf
          have hnd : (fields.map Prod.fst).Nodup :=
            of_decide_eq_true hwf.1
          have hfwf := hwf.2
          rw [find_json_differences]
          simp only [Json.pyTypeName, ne_eq, not_true_eq_false, if_false]
          have hsz : ∀ (k : String) (v : Json), (k, v) ∈ fields → sizeOf v ≤ n := by
            intro k v hv
            have h1 := List.sizeOf_lt_of_mem hv
            have h2 : sizeOf (Json.obj fields) = 1 + sizeOf fields := by simp
            have h3 : sizeOf (k, v) = 1 + sizeOf k + sizeOf v := by simp
            omega
          rw [diffFields_self ih fields fields path
            (fun k v hm => lookupField_eq_of_nodup hnd hm)
            (fun k v hm =>
              ⟨hsz k v hm, fieldsWF_mem hfwf hm, fieldsNoNaN_mem hnn hm⟩)]
          simp only [List.nil_append, List.map_eq_nil_iff, List.filter_eq_nil_iff]
          intro p hp
          rcases p with ⟨k, v⟩
          simp [lookupField_eq_of_nodup hnd hp]

/-- C6 (amended): for every JSON-like structured value X whose mappings have
distinct keys and which contains no `NaN` float scalar, the deep diff of X
against itself, `find_json_differences X X`, is the empty list.  The
unrestricted claim is false: `json.loads` parses `NaN`, and Python's
`nan != nan` makes the equal-scalar branch report a `value_changed`
difference (see the counterexample). -/
theorem C6_diff_self_empty (X : Json) (hwf : X.wellFormed = true)
    (hnn : X.noNaN = true) : find_json_differences X X "" = [] :=
  find_json_differences_self_aux (sizeOf X) X le_rfl hwf hnn ""

theorem C6_diff_self_empty_witness :
    (Json.obj [("userId", .num 1), ("title", .str "t"),
      ("tags", .arr [.str "a", .num 2]),
      ("meta", .obj [("x", .null), ("y", .bool true),
        ("r", .float (.val (27 / 10)))])]).wellFormed = true ∧
    (Json.obj [("userId", .num 1), ("title", .str "t"),
      ("tags", .arr [.str "a", .num 2]),
      ("meta", .obj [("x", .null), ("y", .bool true),
        ("r", .float (.val (27 / 10)))])]).noNaN = true ∧
    find_json_differences
      (Json.obj [("userId", .num 1), ("title", .str "t"),
        ("tags", .arr [.str "a", .num 2]),
        ("meta", .obj [("x", .null), ("y", .bool true),
          ("r", .float (.val (27 / 10)))])])
      (Json.obj [("userId", .num 1), ("title", .str "t"),
        ("tags", .arr [.str "a", .num 2]),
        ("meta", .obj [("x", .null), ("y", .bool true),
          ("r", .float (.val (27 / 10)))])]) "" = [] :=
  ⟨by simp [Json.wellFormed, Json.fieldsWF, Json.itemsWF],
   by simp [Json.noNaN, Json.fieldsNoNaN, Json.itemsNoNaN],
   C6_diff_self_empty _
     (by simp [Json.wellFormed, Json.fieldsWF, Json.itemsWF])
     (by simp [Json.noNaN, Json.fieldsNoNaN, Json.itemsNoNaN])⟩

/-- C6 counterexample: `json.loads` accepts `NaN`, and the source's
`find_json_differences(nan, nan)` reaches the `baseline != current` branch
where `nan != nan` is `True`: the diff of the value against itself is
`[value_changed at root]`, not the empty list. -/
theorem C6_diff_self_counterexample :
    find_json_differences (Json.float PyFloat.nan) (Json.float PyFloat.nan) ""
      = [⟨"root", "value_changed"⟩] := by
  rw [find_json_differences] <;>
    simp [Json.pyTypeName, Json.scalarEq, pyFloatEq, orRoot]

theorem validate_field_vtype (value : Json) (schema : Schema) (path : String) :
    ∀ v ∈ validate_field value schema path, v.vtype = "type_mismatch" := by
  intro v hv
  simp only [validate_field] at hv
  split_ifs at hv with h1 h2 h3 h4 h5 h6
  all_goals simp only [List.mem_singleton, List.not_mem_nil] at hv
  all_goals try subst hv
  all_goals rfl

/-- C7: for every object-typed schema and every mapping that omits a field
listed in the schema's `required` list (listed there once, as keys of a real
schema dict are), `validate_against_schema` yields exactly one
`missing_required_field` violation for that field, whatever the remaining
fields and properties look like. -/
theorem C7_missing_required_unique
    (fields : List (String × Json)) (props : List (String × Schema))
    (req : List String) (f : String)
    (hcount : req.count f = 1)
    (hmissing : lookupField fields f = none) :
    ((validate_against_schema (.obj fields) (.mk (some "object") props req)).filter
      (fun v => v.vtype == "missing_required_field" && v.path == f)).length = 1 := by
  have hto : Schema.ty (.mk (some "object") props req) = some "object" := rfl
  simp only [validate_against_schema, hto, beq_self_eq_true, if_true]
  rw [List.filter_append, List.length_append]
  have hprop :
      ((Schema.properties (.mk (some "object") props req)).flatMap (fun p =>
        match lookupField fields p.1 with
        | some v => validate_field v p.2 p.1
        | none => ([] : List SchemaViolation))).filter
        (fun v => v.vtype == "missing_required_field" && v.path == f) = [] := by
    rw [List.filter_eq_nil_iff]
    intro v hv
    rcases List.mem_flatMap.1 hv with ⟨p, _, hvin⟩
    have hvty : v.vtype = "type_mismatch" := by
      revert hvin
      split
      · exact fun hvin => validate_field_vtype _ _ _ v hvin
      · simp
    simp [hvty]
  rw [hprop]
  rw [List.filter_map, List.length_map, List.length_nil]
  rw [← List.countP_eq_length_filter]
  have hreq : Schema.required (.mk (some "object") props req) = req := rfl
  rw [hreq]
  have hswap := List.countP_congr
    (l := req.filter (fun f' => (lookupField fields f').isNone))
    (p := (fun v : SchemaViolation =>
          v.vtype == "missing_required_field" && v.path == f) ∘
        (fun f' : String => (⟨"missing_required_field", f', some f', none,
          "Required field " ++ f' ++ " is missing"⟩ : SchemaViolation)))
    (q := fun g => g == f) (fun g _ => by simp)
  rw [hswap]
  have hcnt : (req.filter (fun f' => (lookupField fields f').isNone)).countP
      (fun g => g == f) = (req.filter (fun f' => (lookupField fields f').isNone)).count f := rfl
  rw [hcnt, List.count_filter (by simp [hmissing]), hcount]

theorem C7_missing_required_unique_witness :
    (["email"] : List String).count "email" = 1 ∧
    lookupField [("name", Json.str "x")] "email" = none ∧
    ((validate_against_schema (.obj [("name", Json.str "x")])
        (.mk (some "object")
          [("email", .mk (some "string") [] []), ("name", .mk (some "number") [] [])]
          ["email"])).filter
      (fun v => v.vtype == "missing_required_field" && v.path == "email")).length = 1 :=
  ⟨by decide, by rfl,
   C7_missing_required_unique [("name", Json.str "x")]
     [("email", .mk (some "string") [] []), ("name", .mk (some "number") [] [])]
     ["email"] "email" (by decide) (by rfl)⟩

/-- C10: field-level schema validation reports no violation when a boolean
value is checked against a declared `integer` or `number` type — Python's
`bool` is a subtype of `int`, so `isinstance` lets booleans through and
`validate_field` returns the empty list for both. -/
theorem C10_boolean_passes_numeric_types (b : Bool) (path : String) :
    validate_field (.bool b) (.mk (some "integer") [] []) path = [] ∧
    validate_field (.bool b) (.mk (some "number") [] []) path = [] := by
  constructor <;> cases b <;> rfl

/-! ## Test-case generation (`backend/v3.py`)

`expected_status` of a test case is either a single status code (as coerced by
`_validate_and_fix_test_case`) or a list of acceptable codes (as carried by the
template bank). -/

inductive ExpectedStatus where
  | single (code : Int)
  | multi (codes : List Int)
deriving Repr

/-- One entry of the fixed template catalogue of `_generate_fallback_tests`.
The attack/request payloads (`data`, `params`) that some templates carry are
elided: the verified properties concern only the counting, categorisation and
naming of the produced cases, never the request bodies. -/
structure Template where
  method : String
  endpoint : String
  expected_status : List Int
  descr : String
deriving Repr, Inhabited

/-- A generated test case, after the generator has stamped `category`,
defaulted `params`/`data` and forced `validate_body = False`. -/
structure TestCase where
  method : String
  endpoint : String
  expected_status : ExpectedStatus
  descr : String
  category : String
  validate_body : Bool
  expected_body : Option Json := none
  expected_schema : Option Schema := none

/-- `security_templates` of `_generate_fallback_tests` (34 entries; the two
authentication-bypass entries pick their accepted status set from `has_auth`). -/
def security_templates (has_auth : Bool) : List Template :=
  [⟨"POST", "", [200, 201, 400, 403, 404, 422], "SQL injection - DROP TABLE"⟩,
   ⟨"POST", "", [200, 201, 400, 403, 404, 422], "SQL injection - OR condition"⟩,
   ⟨"POST", "", [200, 201, 400, 403, 404, 422], "SQL injection - UNION attack"⟩,
   ⟨"GET", "", [200, 400, 403, 404], "SQL injection in query param"⟩,
   ⟨"POST", "", [200, 201, 400, 403, 404, 422], "SQL injection - comment bypass"⟩,
   ⟨"POST", "", [200, 201, 400, 403, 404, 422], "XSS - script tag"⟩,
   ⟨"POST", "", [200, 201, 400, 403, 404, 422], "XSS - img onerror"⟩,
   ⟨"POST", "", [200, 201, 400, 403, 404, 422], "XSS - javascript protocol"⟩,
   ⟨"POST", "", [200, 201, 400, 403, 404, 422], "XSS - SVG onload"⟩,
   ⟨"POST", "", [200, 201, 400, 403, 404, 422], "XSS - iframe injection"⟩,
   ⟨"GET", "/../../../etc/passwd", [200, 404, 403], "Path traversal - etc/passwd"⟩,
   ⟨"GET", "/../../windows/system32/config/sam", [200, 404, 403],
     "Path traversal - Windows SAM"⟩,
   ⟨"POST", "", [200, 201, 400, 403, 404, 422], "Path traversal in POST data"⟩,
   ⟨"GET", "", [200, 400, 403, 404], "Path traversal - double encoding"⟩,
   ⟨"GET", "/%2e%2e%2f%2e%2e%2fetc%2fpasswd", [200, 404, 403],
     "Path traversal - URL encoded"⟩,
   ⟨"POST", "", [200, 201, 400, 403, 404, 422], "Command injection - ls"⟩,
   ⟨"POST", "", [200, 201, 400, 403, 404, 422], "Command injection - pipe"⟩,
   ⟨"POST", "", [200, 201, 400, 403, 404, 422], "Command injection - backticks"⟩,
   ⟨"POST", "", [200, 201, 400, 403, 404, 422], "Command injection - subshell"⟩,
   ⟨"POST", "", [200, 201, 400, 403, 404, 422], "NoSQL injection - $gt operator"⟩,
   ⟨"POST", "", [200, 201, 400, 403, 404, 422], "NoSQL injection - $ne operator"⟩,
   ⟨"POST", "", [200, 201, 400, 403, 404, 422], "NoSQL injection - regex"⟩,
   ⟨"POST", "", [200, 201, 400, 403, 404, 422], "LDAP injection"⟩,
   ⟨"POST", "", [200, 201, 400, 403, 404, 422], "LDAP wildcard injection"⟩,
   ⟨"POST", "", [200, 201, 400, 403, 404, 422], "XXE injection"⟩,
   ⟨"POST", "", [200, 201, 400, 403, 404, 422], "SSRF - localhost scan"⟩,
   ⟨"POST", "", [200, 201, 400, 403, 404, 422], "SSRF - AWS metadata"⟩,
   ⟨"POST", "", [200, 201, 400, 403, 404, 422], "SSRF - internal network"⟩,
   ⟨"GET", "", [200, 400, 403, 404], "CRLF injection"⟩,
   ⟨"POST", "/admin", if has_auth then [401, 403, 404] else [200, 404],
     "Admin endpoint without auth"⟩,
   ⟨"GET", "/users", if has_auth then [200, 401, 403, 404] else [200, 404],
     "Privilege escalation attempt"⟩,
   ⟨"POST", "", [200, 201, 400, 403, 404, 422], "Mass assignment - admin role"⟩,
   ⟨"POST", "", [200, 201, 400, 403, 404, 422], "PHP shell upload attempt"⟩,
   ⟨"POST", "", [200, 201, 400, 403, 404, 422], "Path traversal in filename"⟩]

/-- `happy_templates` (10 entries). -/
def happy_templates : List Template :=
  [⟨"POST", "", [200, 201, 400, 404], "Create resource with valid data"⟩,
   ⟨"GET", "/1", [200, 404], "Retrieve existing resource"⟩,
   ⟨"GET", "", [200, 404], "List all resources"⟩,
   ⟨"GET", "", [200, 400, 404], "List with pagination"⟩,
   ⟨"PUT", "/1", [200, 201, 204, 404], "Update existing resource"⟩,
   ⟨"PATCH", "/1", [200, 201, 204, 404], "Partial update"⟩,
   ⟨"DELETE", "/1", [200, 204, 404], "Delete existing resource"⟩,
   ⟨"GET", "", [200, 400, 404], "List with sorting"⟩,
   ⟨"GET", "", [200, 400, 404], "List with filtering"⟩,
   ⟨"GET", "/1", [200, 404], "Retrieve with includes"⟩]

/-- `negative_templates` (10 fixed entries, plus one missing-required-field
entry per sample-payload key, capped at the first 5 keys; an empty sample
payload adds none, matching the `if sample_data:` guard). -/
def negative_templates (sampleKeys : List String) : List Template :=
  [⟨"POST", "", [200, 201, 400, 404, 422], "Create with empty body"⟩,
   ⟨"POST", "", [200, 201, 400, 404, 422], "Create with null body"⟩,
   ⟨"GET", "/99999", [200, 404], "Retrieve non-existent resource"⟩,
   ⟨"GET", "/invalid-id", [200, 400, 404], "Retrieve with invalid ID format"⟩,
   ⟨"DELETE", "/99999", [200, 204, 404], "Delete non-existent resource"⟩,
   ⟨"PUT", "/99999", [200, 201, 404], "Update non-existent resource"⟩,
   ⟨"PATCH", "/99999", [200, 404], "Partial update non-existent"⟩,
   ⟨"GET", "", [200, 400, 404], "List with negative limit"⟩,
   ⟨"GET", "", [200, 400, 404], "List with zero page"⟩,
   ⟨"POST", "", [200, 201, 400, 404, 422], "Create with invalid fields"⟩]
  ++ (sampleKeys.take 5).map (fun k =>
      ⟨"POST", "", [200, 201, 400, 404, 422],
        "Create missing required field: " ++ k⟩)

/-- `edge_templates` (10 entries). -/
def edge_templates : List Template :=
  [⟨"POST", "", [200, 201, 400, 404, 413, 422], "Create with extremely long string"⟩,
   ⟨"POST", "", [200, 201, 400, 404, 422], "Create with empty string field"⟩,
   ⟨"POST", "", [200, 201, 400, 404, 422], "Create with null field"⟩,
   ⟨"GET", "", [200, 400, 404], "List with excessive limit"⟩,
   ⟨"POST", "", [200, 201, 400, 404, 422], "Create with large negative number"⟩,
   ⟨"POST", "", [200, 201, 400, 404, 422], "Create with zero value"⟩,
   ⟨"POST", "", [200, 201, 400, 404, 422], "Create with very large number"⟩,
   ⟨"GET", "", [200, 400, 404], "List with invalid sort parameter"⟩,
   ⟨"POST", "", [200, 201, 400, 404, 422], "Create with whitespace only"⟩,
   ⟨"POST", "", [200, 201, 404], "Create with special characters"⟩]

/-- `fuzz_templates` (32 entries). -/
def fuzz_templates : List Template :=
  [⟨"POST", "", [200, 201, 400, 413, 422],
     "Fuzz: Extremely large string payload (100k chars)"⟩,
   ⟨"POST", "", [200, 201, 400, 422], "Fuzz: Binary/null bytes in string field"⟩,
   ⟨"POST", "", [200, 201, 400, 422], "Fuzz: Invalid unicode characters"⟩,
   ⟨"POST", "", [200, 201, 400, 422], "Fuzz: Format string attack vector"⟩,
   ⟨"POST", "", [200, 201, 400, 422], "Fuzz: Array instead of string"⟩,
   ⟨"POST", "", [200, 201, 400, 422], "Fuzz: Object instead of primitive"⟩,
   ⟨"POST", "", [200, 201, 400, 422], "Fuzz: Boolean instead of string"⟩,
   ⟨"POST", "", [200, 201, 400, 422], "Fuzz: Completely empty object"⟩,
   ⟨"POST", "", [200, 201, 400, 422], "Fuzz: URL-encoded null bytes"⟩,
   ⟨"POST", "", [200, 201, 400, 422], "Fuzz: HTML context breaking"⟩,
   ⟨"POST", "", [200, 201, 400, 403, 422],
     "Fuzz: Null byte injection with path traversal"⟩,
   ⟨"POST", "", [200, 201, 400, 422], "Fuzz: Max 32-bit integer (INT_MAX)"⟩,
   ⟨"POST", "", [200, 201, 400, 422], "Fuzz: Min 32-bit integer (INT_MIN)"⟩,
   ⟨"POST", "", [200, 201, 400, 422], "Fuzz: Max 64-bit integer"⟩,
   ⟨"POST", "", [200, 201, 400, 422], "Fuzz: Min 64-bit integer"⟩,
   ⟨"POST", "", [200, 201, 400, 422], "Fuzz: All special characters"⟩,
   ⟨"POST", "", [200, 201, 400, 422], "Fuzz: Control characters (newline, tab, etc)"⟩,
   ⟨"POST", "", [200, 201, 400, 422], "Fuzz: SQL injection payload"⟩,
   ⟨"POST", "", [200, 201, 400, 422], "Fuzz: Log4j RCE payload (CVE-2021-44228)"⟩,
   ⟨"GET", "", [200, 400, 414], "Fuzz: Extremely long query parameter"⟩,
   ⟨"GET", "/" ++ String.mk (List.replicate 5000 'A'), [200, 404, 414],
     "Fuzz: Extremely long URL path"⟩,
   ⟨"POST", "", [200, 201, 400, 422], "Fuzz: Deeply nested arrays"⟩,
   ⟨"POST", "", [200, 201, 400, 422], "Fuzz: Deeply nested objects"⟩,
   ⟨"POST", "", [200, 201, 400, 422], "Fuzz: Max float value"⟩,
   ⟨"POST", "", [200, 201, 400, 422], "Fuzz: Extremely small float"⟩,
   ⟨"POST", "", [200, 201, 400, 422], "Fuzz: Infinity value"⟩,
   ⟨"POST", "", [200, 201, 400, 422], "Fuzz: Duplicate JSON keys"⟩,
   ⟨"GET", "", [200, 400], "Fuzz: CRLF injection in parameter"⟩,
   ⟨"POST", "", [200, 201, 400, 413, 422, 500],
     "Fuzz: 1MB string payload (potential buffer overflow)"⟩,
   ⟨"DELETE", "/1", [200, 204, 404], "Fuzz: DELETE non-existent (race condition test)"⟩,
   ⟨"POST", "", [200, 201, 400, 422], "Fuzz: Polyglot XSS payload"⟩,
   ⟨"POST", "", [200, 201, 400, 422], "Fuzz: JSON string injection"⟩]

/-- Per-category counts of `_generate_fallback_tests` before the adjustment
step: proportional split 25/20/20/15/20 with floor clamping
(`max(3, int(num * 0.25))` and friends; `security_test` clamps at 5). -/
structure FallbackCounts where
  happy_path : Nat
  negative_test : Nat
  security_test : Nat
  edge_case : Nat
  fuzz_test : Nat
deriving Repr

def fallback_counts (num : Nat) : FallbackCounts :=
  { happy_path := max 3 (num / 4)
    negative_test := max 3 (num / 5)
    security_test := max 5 (num / 5)
    edge_case := max 3 (3 * num / 20)
    fuzz_test := max 3 (num / 5) }

/-- The `happy_path` count after the adjustment
`counts['happy_path'] += (num - total)` / `-= (total - num)` — both branches
add the signed difference `num - total`, which can drive the Python int
negative for small `num` (the subsequent `range` then produces nothing). -/
def adjusted_happy (num : Nat) : Int :=
  let c := fallback_counts num
  (c.happy_path : Int) +
    ((num : Int) - (c.happy_path + c.negative_test + c.security_test
      + c.edge_case + c.fuzz_test : Nat))

/-- Stamp a template into a test case the way every selection loop does:
assign the category, default `params`/`data`, force `validate_body = False`. -/
def mkCase (t : Template) (cat : String) : TestCase :=
  { method := t.method, endpoint := t.endpoint,
    expected_status := .multi t.expected_status, descr := t.descr,
    category := cat, validate_body := false }

/-- The security selection of `_generate_fallback_tests`: take the first
`min(cnt, len)` entries of the (shuffled) template list, then, when more are
needed, cycle through the list again appending a `(variant k)` suffix. -/
def security_selected (tmpls : List Template) (cnt : Nat) : List TestCase :=
  ((List.range (min cnt tmpls.length)).map
    (fun i => mkCase (tmpls.getD i default) "security_test"))
  ++ (if tmpls.length < cnt then
        (List.range (cnt - tmpls.length)).map (fun i =>
          let t := tmpls.getD (i % tmpls.length) default
          { mkCase t "security_test" with
              descr := t.descr ++ " (variant " ++ toString (i + 1) ++ ")" })
      else [])

/-- The selection loop shared by the happy/negative/edge/fuzz categories:
`templates[i % len]`, with a `(variant k)` description suffix once the list
is exhausted. -/
def cycle_select (tmpls : List Template) (cat : String) (cnt : Nat) :
    List TestCase :=
  (List.range cnt).map (fun i =>
    let t := tmpls.getD (i % tmpls.length) default
    if tmpls.length ≤ i then
      { mkCase t cat with
          descr := t.descr ++ " (variant "
            ++ toString (i / tmpls.length + 1) ++ ")" }
    else mkCase t cat)

/-- `all_tests` of `_generate_fallback_tests` just before the final shuffle:
security, happy-path, negative, edge and fuzz selections appended in source
order.  `shuffleSec` stands for the `random.shuffle(security_templates)`
call — an arbitrary permutation supplied as an explicit argument. -/
def fallback_all (shuffleSec : List Template → List Template)
    (sampleKeys : List String) (num : Nat) (has_auth : Bool) : List TestCase :=
  let c := fallback_counts num
  security_selected (shuffleSec (security_templates has_auth)) c.security_test
  ++ cycle_select happy_templates "happy_path" (adjusted_happy num).toNat
  ++ cycle_select (negative_templates sampleKeys) "negative_test" c.negative_test
  ++ cycle_select edge_templates "edge_case" c.edge_case
  ++ cycle_select fuzz_templates "fuzz_test" c.fuzz_test

/-- `_generate_fallback_tests`: assemble `all_tests`, shuffle
(`random.shuffle(all_tests)`, again an arbitrary permutation argument), and
truncate to `num` (`return all_tests[:num]`). -/
def generate_fallback_tests (shuffleSec : List Template → List Template)
    (shuffleAll : List TestCase → List TestCase) (sampleKeys : List String)
    (num : Nat) (has_auth : Bool) : List TestCase :=
  (shuffleAll (fallback_all shuffleSec sampleKeys num has_auth)).take num

/-- Number of cases of a given category in a generated list. -/
def categoryCount (cat : String) (l : List TestCase) : Nat :=
  l.countP (fun t => t.category == cat)

theorem security_selected_length {tmpls : List Template} (cnt : Nat)
    (h : 0 < tmpls.length) : (security_selected tmpls cnt).length = cnt := by
  unfold security_selected
  rcases le_or_lt cnt tmpls.length with hle | hlt
  · rw [if_neg (by omega)]
    simp [min_eq_left hle]
  · rw [if_pos hlt]
    simp [min_eq_right (le_of_lt hlt)]
    omega

theorem cycle_select_length (tmpls : List Template) (cat : String) (cnt : Nat) :
    (cycle_select tmpls cat cnt).length = cnt := by
  simp [cycle_select]

theorem fallback_all_length (shuffleSec : List Template → List Template)
    (hs : ∀ l, (shuffleSec l).Perm l) (sampleKeys : List String) (num : Nat)
    (has_auth : Bool) :
    (fallback_all shuffleSec sampleKeys num has_auth).length =
      (fallback_counts num).security_test + (adjusted_happy num).toNat
      + (fallback_counts num).negative_test + (fallback_counts num).edge_case
      + (fallback_counts num).fuzz_test := by
  have hlen : (shuffleSec (security_templates has_auth)).length =
      (security_templates has_auth).length :=
    (hs (security_templates has_auth)).length_eq
  have hpos : 0 < (shuffleSec (security_templates has_auth)).length := by
    rw [hlen]; cases has_auth <;> simp [security_templates]
  unfold fallback_all
  simp only [List.length_append, security_selected_length _ hpos,
    cycle_select_length]
  try omega

theorem fallback_all_length_ge (shuffleSec : List Template → List Template)
    (hs : ∀ l, (shuffleSec l).Perm l) (sampleKeys : List String) (num : Nat)
    (has_auth : Bool) :
    num ≤ (fallback_all shuffleSec sampleKeys num has_auth).length := by
  rw [fallback_all_length shuffleSec hs]
  unfold adjusted_happy fallback_counts
  simp only
  omega

theorem generate_fallback_tests_length
    (shuffleSec : List Template → List Template)
    (shuffleAll : List TestCase → List TestCase) (sampleKeys : List String)
    (num : Nat) (has_auth : Bool)
    (hs : ∀ l, (shuffleSec l).Perm l) (ha : ∀ l, (shuffleAll l).Perm l) :
    (generate_fallback_tests shuffleSec shuffleAll sampleKeys num
      has_auth).length = num := by
  unfold generate_fallback_tests
  rw [List.length_take,
    (ha (fallback_all shuffleSec sampleKeys num has_auth)).length_eq]
  exact min_eq_left (fallback_all_length_ge shuffleSec hs sampleKeys num has_auth)

/-- C2: for every `num ≥ 1` (indeed for every `num`) and every sample payload,
the Template Test Bank fallback generator returns a list of exactly `num`
test cases, for any behaviour of the two shuffle steps. -/
theorem C2_fallback_exact_count (shuffleSec : List Template → List Template)
    (shuffleAll : List TestCase → List TestCase) (sampleKeys : List String)
    (num : Nat) (has_auth : Bool) (hnum : 1 ≤ num)
    (hs : ∀ l, (shuffleSec l).Perm l) (ha : ∀ l, (shuffleAll l).Perm l) :
    (generate_fallback_tests shuffleSec shuffleAll sampleKeys num
      has_auth).length = num :=
  generate_fallback_tests_length shuffleSec shuffleAll sampleKeys num
    has_auth hs ha

theorem C2_fallback_exact_count_witness :
    1 ≤ 7 ∧ (generate_fallback_tests id id ["title", "body"] 7 false).length = 7 :=
  ⟨by decide,
   C2_fallback_exact_count id id ["title", "body"] 7 false (by decide)
     (fun l => List.Perm.refl l) (fun l => List.Perm.refl l)⟩

theorem security_selected_category (tmpls : List Template) (cnt : Nat) :
    ∀ t ∈ security_selected tmpls cnt, t.category = "security_test" := by
  intro t ht
  unfold security_selected at ht
  rcases List.mem_append.1 ht with h | h
  · rcases List.mem_map.1 h with ⟨i, _, rfl⟩
    rfl
  · split at h
    · rcases List.mem_map.1 h with ⟨i, _, rfl⟩
      rfl
    · simp at h

theorem cycle_select_category (tmpls : List Template) (cat : String) (cnt : Nat) :
    ∀ t ∈ cycle_select tmpls cat cnt, t.category = cat := by
  intro t ht
  unfold cycle_select at ht
  rcases List.mem_map.1 ht with ⟨i, _, rfl⟩
  simp only
  split <;> rfl

theorem countP_category_homogeneous {l : List TestCase} {c0 : String}
    (hall : ∀ t ∈ l, t.category = c0) (cat : String) :
    categoryCount cat l = if c0 == cat then l.length else 0 := by
  unfold categoryCount
  split
  · next hbeq =>
      refine List.countP_eq_length.2 (fun t ht => ?_)
      rw [hall t ht]
      exact hbeq
  · next hbeq =>
      refine List.countP_eq_zero.2 (fun t ht => ?_)
      rw [hall t ht]
      simpa using hbeq

/-- The category distribution of the pre-shuffle `all_tests` list, as a
closed formula — independent of how the security templates are shuffled. -/
def fallback_category_total (num : Nat) (cat : String) : Nat :=
  (if ("security_test" : String) == cat then (fallback_counts num).security_test else 0)
  + (if ("happy_path" : String) == cat then (adjusted_happy num).toNat else 0)
  + (if ("negative_test" : String) == cat then (fallback_counts num).negative_test else 0)
  + (if ("edge_case" : String) == cat then (fallback_counts num).edge_case else 0)
  + (if ("fuzz_test" : String) == cat then (fallback_counts num).fuzz_test else 0)

theorem categoryCount_fallback_all (shuffleSec : List Template → List Template)
    (hs : ∀ l, (shuffleSec l).Perm l) (sampleKeys : List String) (num : Nat)
    (has_auth : Bool) (cat : String) :
    categoryCount cat (fallback_all shuffleSec sampleKeys num has_auth) =
      fallback_category_total num cat := by
  have hpos : 0 < (shuffleSec (security_templates has_auth)).length := by
    rw [(hs (security_templates has_auth)).length_eq]
    cases has_auth <;> simp [security_templates]
  unfold fallback_all fallback_category_total
  simp only [categoryCount, List.countP_append]
  rw [show ∀ l : List TestCase, l.countP (fun t => t.category == cat)
      = categoryCount cat l from fun _ => rfl]
  rw [show ∀ l : List TestCase, l.countP (fun t => t.category == cat)
      = categoryCount cat l from fun _ => rfl]
  rw [show ∀ l : List TestCase, l.countP (fun t => t.category == cat)
      = categoryCount cat l from fun _ => rfl]
  rw [show ∀ l : List TestCase, l.countP (fun t => t.category == cat)
      = categoryCount cat l from fun _ => rfl]
  rw [show ∀ l : List TestCase, l.countP (fun t => t.category == cat)
      = categoryCount cat l from fun _ => rfl]
  rw [countP_category_homogeneous (security_selected_category _ _) cat,
    countP_category_homogeneous (cycle_select_category _ _ _) cat,
    countP_category_homogeneous (cycle_select_category _ _ _) cat,
    countP_category_homogeneous (cycle_select_category _ _ _) cat,
    countP_category_homogeneous (cycle_select_category _ _ _) cat,
    security_selected_length _ hpos, cycle_select_length, cycle_select_length,
    cycle_select_length, cycle_select_length]

theorem fallback_all_length_exact (shuffleSec : List Template → List Template)
    (hs : ∀ l, (shuffleSec l).Perm l) (sampleKeys : List String) (num : Nat)
    (has_auth : Bool) (h14 : 14 ≤ num) :
    (fallback_all shuffleSec sampleKeys num has_auth).length = num := by
  rw [fallback_all_length shuffleSec hs]
  unfold adjusted_happy fallback_counts
  simp only
  omega

theorem categoryCount_generate_fallback
    (shuffleSec : List Template → List Template)
    (shuffleAll : List TestCase → List TestCase) (sampleKeys : List String)
    (num : Nat) (has_auth : Bool) (h14 : 14 ≤ num)
    (hs : ∀ l, (shuffleSec l).Perm l) (ha : ∀ l, (shuffleAll l).Perm l)
    (cat : String) :
    categoryCount cat
      (generate_fallback_tests shuffleSec shuffleAll sampleKeys num has_auth)
      = fallback_category_total num cat := by
  unfold generate_fallback_tests
  have hperm := ha (fallback_all shuffleSec sampleKeys num has_auth)
  have hlen : (shuffleAll (fallback_all shuffleSec sampleKeys num
      has_auth)).length = num := by
    rw [hperm.length_eq]
    exact fallback_all_length_exact shuffleSec hs sampleKeys num has_auth h14
  rw [List.take_of_length_le (le_of_eq hlen)]
  unfold categoryCount
  rw [hperm.countP_eq]
  exact categoryCount_fallback_all shuffleSec hs sampleKeys num has_auth cat

/-- C3 (amended): for every `num ≥ 14` (so that the pre-shuffle list is not
over-full and truncation drops nothing), the fallback generator returns
exactly `max 5 (num / 5)` security tests — at least `max(5, ⌊0.2·num⌋)`,
which is 10 at `num = 50`.  The claimed `round(0.2·N)` bound fails at
e.g. `N = 48` (see the counterexample). -/
theorem C3_security_count (shuffleSec : List Template → List Template)
    (shuffleAll : List TestCase → List TestCase) (sampleKeys : List String)
    (num : Nat) (has_auth : Bool) (h14 : 14 ≤ num)
    (hs : ∀ l, (shuffleSec l).Perm l) (ha : ∀ l, (shuffleAll l).Perm l) :
    categoryCount "security_test"
      (generate_fallback_tests shuffleSec shuffleAll sampleKeys num has_auth)
      = max 5 (num / 5) := by
  rw [categoryCount_generate_fallback shuffleSec shuffleAll sampleKeys num
    has_auth h14 hs ha]
  simp [fallback_category_total, fallback_counts]

theorem C3_security_count_witness :
    14 ≤ 50 ∧ categoryCount "security_test"
      (generate_fallback_tests id id ["userId", "title", "body"] 50 false)
      = max 5 (50 / 5) :=
  ⟨by decide,
   C3_security_count id id ["userId", "title", "body"] 50 false (by decide)
     (fun l => List.Perm.refl l) (fun l => List.Perm.refl l)⟩

/-- C3 counterexample: at the (arbitrarily large family of) counts `N ≡ 3, 4
mod 5` the claimed bound `max(5, round(0.2·N))` exceeds the produced count;
concretely at `N = 48` only 9 security tests are produced while the claim
demands `max(5, round(9.6)) = 10`. -/
theorem C3_security_count_counterexample :
    categoryCount "security_test" (generate_fallback_tests id id [] 48 false) = 9
    ∧ max (5 : ℤ) (round ((48 : ℚ) / 5)) = 10 := by
  constructor
  · decide
  · rw [show ((48 : ℚ) / 5) = 9.6 by norm_num]
    rw [round_eq]
    norm_num

/-- C4 (amended): for every `num ≥ 14` and identical inputs, any two runs of
the fallback generator — whatever permutations the two internal shuffles
produce in each run — yield the same per-category counts.  For `num ≤ 13`
the final truncation makes the counts depend on the shuffle (see the
counterexample). -/
theorem C4_category_distribution
    (shuffleSec shuffleSec' : List Template → List Template)
    (shuffleAll shuffleAll' : List TestCase → List TestCase)
    (sampleKeys : List String) (num : Nat) (has_auth : Bool) (cat : String)
    (h14 : 14 ≤ num)
    (hs : ∀ l, (shuffleSec l).Perm l) (ha : ∀ l, (shuffleAll l).Perm l)
    (hs' : ∀ l, (shuffleSec' l).Perm l) (ha' : ∀ l, (shuffleAll' l).Perm l) :
    categoryCount cat
      (generate_fallback_tests shuffleSec shuffleAll sampleKeys num has_auth)
      = categoryCount cat
        (generate_fallback_tests shuffleSec' shuffleAll' sampleKeys num
          has_auth) := by
  rw [categoryCount_generate_fallback shuffleSec shuffleAll sampleKeys num
      has_auth h14 hs ha,
    categoryCount_generate_fallback shuffleSec' shuffleAll' sampleKeys num
      has_auth h14 hs' ha']

theorem C4_category_distribution_witness :
    14 ≤ 20 ∧ categoryCount "fuzz_test"
      (generate_fallback_tests id id ["userId"] 20 false)
      = categoryCount "fuzz_test"
        (generate_fallback_tests id List.reverse ["userId"] 20 false) :=
  ⟨by decide,
   C4_category_distribution id id id List.reverse ["userId"] 20 false
     "fuzz_test" (by decide) (fun l => List.Perm.refl l)
     (fun l => List.Perm.refl l) (fun l => List.Perm.refl l)
     (fun l => l.reverse_perm)⟩

/-! ## Test execution (`APITester.test_request` / `run_ai_generated_tests`) -/

/-- Status-code acceptance of `test_request`: membership when the expectation
is a list, equality when it is a single code. -/
def status_match : ExpectedStatus → Int → Bool
  | .multi codes, s => codes.contains s
  | .single c, s => s == c

/-- Python truthiness of a float: only `0.0` is falsy (`nan` and the
infinities are truthy). -/
def pyFloatTruthy : PyFloat → Bool
  | .val q => q != 0
  | _ => true

/-- Python truthiness of a decoded JSON value (`if expected_body:`). -/
def Json.pyTruthy : Json → Bool
  | .null => false
  | .bool b => b
  | .num n => n != 0
  | .float f => pyFloatTruthy f
  | .str s => !s.isEmpty
  | .arr xs => !xs.isEmpty
  | .obj fs => !fs.isEmpty

mutual

/-- Deep equality of decoded JSON values (`response_json == expected_body`).
Object fields are compared in order; a Python dict compares unordered, but
both sides of the comparison come through the same `json.loads`. -/
def Json.pyEq : Json → Json → Bool
  | .null, .null => true
  | .bool a, .bool b => a == b
  | .num a, .num b => a == b
  | .float a, .float b => pyFloatEq a b
  | .str a, .str b => a == b
  | .arr a, .arr b => Json.itemsEq a b
  | .obj a, .obj b => Json.fieldsEq a b
  | _, _ => false
termination_by a => sizeOf a

/-- Element-wise `pyEq` on arrays. -/
def Json.itemsEq : List Json → List Json → Bool
  | [], [] => true
  | a :: as_, b :: bs => a.pyEq b && Json.itemsEq as_ bs
  | _, _ => false
termination_by a => sizeOf a

/-- Field-wise `pyEq` on objects. -/
def Json.fieldsEq : List (String × Json) → List (String × Json) → Bool
  | [], [] => true
  | (ka, va) :: as_, (kb, vb) :: bs => ka == kb && va.pyEq vb && Json.fieldsEq as_ bs
  | _, _ => false
termination_by a => sizeOf a

end

/-- The body of `_validate_response_body` after the parse step: expected-body
deep equality first, else schema validation, else trivially valid.  The
schema check itself is the external `jsonschema.validate` library call,
supplied as the function argument `jsonschemaOk`; an empty (falsy) schema
dict is modelled as `none`. -/
def validate_schema_branch (jsonschemaOk : Schema → Json → Bool) (j : Json)
    (expected_schema : Option Schema) : Bool × String :=
  match expected_schema with
  | some sc =>
      if jsonschemaOk sc j then (true, "Response matches schema")
      else (false, "Schema validation failed")
  | none => (true, "No body validation specified")

/-- `_validate_response_body`: an unparsable body fails outright; a truthy
`expected_body` requires deep equality; otherwise the schema branch decides.
`body = none` models a `json.JSONDecodeError` from `response.json()`. -/
def validate_response_body (jsonschemaOk : Schema → Json → Bool)
    (body : Option Json) (expected_body : Option Json)
    (expected_schema : Option Schema) : Bool × String :=
  match body with
  | none => (false, "Response is not valid JSON")
  | some j =>
      match expected_body with
      | some eb =>
          if eb.pyTruthy then
            if j.pyEq eb then (true, "Response body matches expected")
            else (false, "Body mismatch")
          else validate_schema_branch jsonschemaOk j expected_schema
      | none => validate_schema_branch jsonschemaOk j expected_schema

/-- One recorded test result (`log_result`).  The wall-clock `timestamp` and
the raw `response_data` summary are outside the model; `details` carries the
branch's explanation with latency/body previews elided. -/
structure TestResult where
  test : String
  status : String
  details : String
deriving Repr, DecidableEq

/-- `log_result`: append one entry to the ordered result log. -/
def log_result (results : List TestResult) (test_name status details : String) :
    List TestResult :=
  results ++ [⟨test_name, status, details⟩]

/-- The outcome of the single HTTP call a `test_request` performs: a response
(status code, parsed body — `none` when the text is not valid JSON — and raw
text), a timeout (`requests.exceptions.Timeout`), or another transport error
(`requests.exceptions.RequestException`). -/
inductive ProbeOutcome where
  | response (status_code : Int) (body : Option Json) (body_text : String)
  | timeout
  | reqError (msg : String)

/-- The five HTTP methods `test_request` dispatches on; anything else hits
the `Unsupported method` branch before any network call. -/
def supported_method (m : String) : Bool :=
  m == "GET" || m == "POST" || m == "PUT" || m == "PATCH" || m == "DELETE"

/-- The status/body verdict pair computed by `test_request` on a response:
`status_match`, and `body_valid` (left `True` unless `validate_body` is set
and the status matched). -/
def evaluate_response (jsonschemaOk : Schema → Json → Bool) (tc : TestCase)
    (status_code : Int) (body : Option Json) : Bool × Bool :=
  let sm := status_match tc.expected_status status_code
  let bv :=
    if tc.validate_body && sm then
      (validate_response_body jsonschemaOk body tc.expected_body
        tc.expected_schema).1
    else true
  (sm, bv)

/-- The single result `test_request` records for a case, per branch of the
source: unsupported method / evaluated response (`PASS` iff
`status_match and body_valid`) / timeout / transport error. -/
def test_request_entry (jsonschemaOk : Schema → Json → Bool) (tc : TestCase)
    (test_name : String) (outcome : ProbeOutcome) : TestResult :=
  if !supported_method tc.method then
    ⟨test_name, "FAIL", "Unsupported method: " ++ tc.method⟩
  else
    match outcome with
    | .response st body _ =>
        let v := evaluate_response jsonschemaOk tc st body
        if v.1 && v.2 then ⟨test_name, "PASS", "Status OK"⟩
        else
          ⟨test_name, "FAIL",
            (if !v.1 then "Status mismatch. " else "")
              ++ (if !v.2 then "Body invalid. " else "")⟩
    | .timeout => ⟨test_name, "FAIL", "Request timeout"⟩
    | .reqError e => ⟨test_name, "FAIL", "Error: " ++ e⟩

/-- `test_request`: every control-flow path of the source calls `log_result`
exactly once and returns; transport failures are converted, never raised. -/
def test_request (jsonschemaOk : Schema → Json → Bool)
    (results : List TestResult) (tc : TestCase) (test_name : String)
    (outcome : ProbeOutcome) : List TestResult :=
  if !supported_method tc.method then
    log_result results test_name "FAIL" ("Unsupported method: " ++ tc.method)
  else
    match outcome with
    | .response st body _ =>
        let v := evaluate_response jsonschemaOk tc st body
        if v.1 && v.2 then
          log_result results test_name "PASS" "Status OK"
        else
          log_result results test_name "FAIL"
            ((if !v.1 then "Status mismatch. " else "")
              ++ (if !v.2 then "Body invalid. " else ""))
    | .timeout => log_result results test_name "FAIL" "Request timeout"
    | .reqError e => log_result results test_name "FAIL" ("Error: " ++ e)

theorem test_request_eq_append (jsonschemaOk : Schema → Json → Bool)
    (results : List TestResult) (tc : TestCase) (test_name : String)
    (outcome : ProbeOutcome) :
    test_request jsonschemaOk results tc test_name outcome
      = results ++ [test_request_entry jsonschemaOk tc test_name outcome] := by
  unfold test_request test_request_entry log_result
  split
  · rfl
  · cases outcome with
    | response st body btext => simp only; split <;> rfl
    | timeout => rfl
    | reqError e => rfl

/-- Naming scheme of `run_ai_generated_tests` (`enumerate(test_cases, 1)`). -/
def ai_test_name (i : Nat) (tc : TestCase) : String :=
  if tc.category == "custom" then
    "[Custom Test " ++ toString i ++ "] " ++ tc.descr
  else "[AI Test " ++ toString i ++ "] " ++ tc.descr

/-- `run_ai_generated_tests`: strictly sequential loop, one `test_request`
per case; `outcomes i` is whatever the i-th probe call returns. -/
def run_ai_generated_tests (jsonschemaOk : Schema → Json → Bool)
    (outcomes : Nat → ProbeOutcome) :
    List TestCase → Nat → List TestResult → List TestResult
  | [], _, results => results
  | tc :: rest, i, results =>
      run_ai_generated_tests jsonschemaOk outcomes rest (i + 1)
        (test_request jsonschemaOk results tc (ai_test_name i tc) (outcomes i))

/-- The result entries the runner is expected to append: one per supplied
case, in supply order, with the enumerated name. -/
def expected_results (jsonschemaOk : Schema → Json → Bool)
    (outcomes : Nat → ProbeOutcome) :
    List TestCase → Nat → List TestResult
  | [], _ => []
  | tc :: rest, i =>
      test_request_entry jsonschemaOk tc (ai_test_name i tc) (outcomes i)
        :: expected_results jsonschemaOk outcomes rest (i + 1)

theorem run_ai_generated_tests_eq (jsonschemaOk : Schema → Json → Bool)
    (outcomes : Nat → ProbeOutcome) :
    ∀ (cases : List TestCase) (i : Nat) (results : List TestResult),
      run_ai_generated_tests jsonschemaOk outcomes cases i results
        = results ++ expected_results jsonschemaOk outcomes cases i := by
  intro cases
  induction cases with
  | nil => intro i results; simp [run_ai_generated_tests, expected_results]
  | cons tc rest ih =>
      intro i results
      rw [run_ai_generated_tests, expected_results, ih,
        test_request_eq_append]
      simp

theorem expected_results_length (jsonschemaOk : Schema → Json → Bool)
    (outcomes : Nat → ProbeOutcome) :
    ∀ (cases : List TestCase) (i : Nat),
      (expected_results jsonschemaOk outcomes cases i).length = cases.length := by
  intro cases
  induction cases with
  | nil => intro i; rfl
  | cons tc rest ih => intro i; simp [expected_results, ih]

/-- C8: the Test Runner appends exactly one result per supplied case, in the
exact supply order (the log is the old log plus one enumerated entry per
case), and a timeout or transport error is recorded as a `FAIL`ed result —
the loop never aborts or skips the remainder. -/
theorem C8_runner_one_result_per_case (jsonschemaOk : Schema → Json → Bool)
    (outcomes : Nat → ProbeOutcome) (cases : List TestCase)
    (results : List TestResult) :
    (run_ai_generated_tests jsonschemaOk outcomes cases 1 results
      = results ++ expected_results jsonschemaOk outcomes cases 1)
    ∧ (run_ai_generated_tests jsonschemaOk outcomes cases 1 results).length
        = results.length + cases.length
    ∧ (∀ (tc : TestCase) (name : String),
        (test_request_entry jsonschemaOk tc name .timeout).status = "FAIL")
    ∧ (∀ (tc : TestCase) (name : String) (e : String),
        (test_request_entry jsonschemaOk tc name (.reqError e)).status
          = "FAIL") := by
  refine ⟨run_ai_generated_tests_eq jsonschemaOk outcomes cases 1 results,
    ?_, ?_, ?_⟩
  · rw [run_ai_generated_tests_eq jsonschemaOk outcomes cases 1 results]
    simp [expected_results_length]
  · intro tc name
    unfold test_request_entry
    split <;> rfl
  · intro tc name e
    unfold test_request_entry
    split <;> rfl

/-- C5: on a response outcome for a case with a supported method, the
recorded verdict is `PASS` iff the status code matches the expectation and
the body check passed; in particular with `expected_status = [200, 404]` and
no body validation requested, status 404 is a `PASS` regardless of the body,
and status 500 is a `FAIL` whatever the body and validation flags. -/
theorem C5_pass_iff_status_match_and_body_valid
    (jsonschemaOk : Schema → Json → Bool) (tc : TestCase) (name : String)
    (st : Int) (body : Option Json) (btext : String)
    (hm : supported_method tc.method = true) :
    ((test_request_entry jsonschemaOk tc name (.response st body btext)).status
        = "PASS"
      ↔ (status_match tc.expected_status st = true
          ∧ (evaluate_response jsonschemaOk tc st body).2 = true))
    ∧ (tc.expected_status = .multi [200, 404] → tc.validate_body = false →
        (test_request_entry jsonschemaOk tc name
          (.response 404 body btext)).status = "PASS")
    ∧ (tc.expected_status = .multi [200, 404] →
        (test_request_entry jsonschemaOk tc name
          (.response 500 body btext)).status = "FAIL") := by
  refine ⟨?_, ?_, ?_⟩
  · unfold test_request_entry
    rw [if_neg (by simp [hm])]
    simp only
    constructor
    · intro hpass
      by_contra hcon
      rw [not_and_or] at hcon
      have : ((evaluate_response jsonschemaOk tc st body).1
          && (evaluate_response jsonschemaOk tc st body).2) = false := by
        rcases hcon with hc | hc
        · have : (evaluate_response jsonschemaOk tc st body).1 = false := by
            have : (evaluate_response jsonschemaOk tc st body).1
                = status_match tc.expected_status st := rfl
            rw [this]
            exact Bool.not_eq_true _ ▸ (by simpa using hc)
          simp [this]
        · have : (evaluate_response jsonschemaOk tc st body).2 = false := by
            simpa using hc
          simp [this]
      rw [this] at hpass
      simp at hpass
    · intro ⟨h1, h2⟩
      have hv1 : (evaluate_response jsonschemaOk tc st body).1 = true := h1
      rw [if_pos (by rw [hv1, h2]; rfl)]
  · intro hexp hvb
    unfold test_request_entry
    rw [if_neg (by simp [hm])]
    simp only
    rw [if_pos ?_]
    unfold evaluate_response
    simp [hexp, hvb, status_match]
  · intro hexp
    unfold test_request_entry
    rw [if_neg (by simp [hm])]
    simp only
    rw [if_neg ?_]
    unfold evaluate_response
    simp [hexp, status_match]

theorem C5_pass_iff_status_match_and_body_valid_witness :
    supported_method "GET" = true ∧
    ((test_request_entry (fun _ _ => true)
        { method := "GET", endpoint := "", expected_status := .multi [200, 404],
          descr := "d", category := "happy_path", validate_body := false }
        "t" (.response 404 none "x")).status = "PASS"
      ↔ (status_match (.multi [200, 404]) 404 = true
          ∧ (evaluate_response (fun _ _ => true)
              { method := "GET", endpoint := "",
                expected_status := .multi [200, 404], descr := "d",
                category := "happy_path", validate_body := false }
              404 none).2 = true)) :=
  ⟨by decide,
   (C5_pass_iff_status_match_and_body_valid (fun _ _ => true)
     { method := "GET", endpoint := "", expected_status := .multi [200, 404],
       descr := "d", category := "happy_path", validate_body := false }
     "t" 404 none "x" (by decide)).1⟩

/-- C4 counterexample: at `num = 1` the generator truncates a 14-element
shuffled list to a single case, so the surviving category depends on the
shuffle: the identity shuffle keeps a security test, the reversing shuffle
keeps a fuzz test. -/
theorem C4_category_distribution_counterexample :
    ¬ (categoryCount "security_test"
        (generate_fallback_tests id id ["userId"] 1 false)
      = categoryCount "security_test"
        (generate_fallback_tests id List.reverse ["userId"] 1 false)) := by
  decide

/-! ## Generation orchestration (`generate_test_cases`,
`_generate_test_cases_batched`, `_generate_single_batch`)

The external text-completion provider is an opaque collaborator: what the
orchestrator sees of one attempt is classified by `GenAttempt` exactly along
the branches of the source — an exception from the API call, an empty
response, unextractable JSON, a parse error / missing `tests` array, a
non-list `tests` field, or a list of items; in the last case `valid` stands
for the cases surviving the `isinstance(tc, dict)` filter and
`_validate_and_fix_test_case` coercion of arbitrary provider output, so
quantifying over it covers every provider behaviour. -/
inductive GenAttempt where
  | exn
  | empty
  | noJson
  | parseError
  | notList
  | items (valid : List TestCase)

/-- `min_acceptable = max(1, int(num_tests * 0.8))` (exact for IEEE doubles
over the code's range, see the header note). -/
def min_acceptable (num : Nat) : Nat := max 1 (4 * num / 5)

/-- The `for attempt in range(max_retries)` loop of `generate_test_cases`
(small-N path), `r` counting the remaining attempts (3 at entry), `k` the
attempt index.  Every failure on the last attempt — and the fall through the
loop after a `continue` — returns the Template Test Bank fallback `fb`; a
valid list of at least `num` items is truncated and accepted; one of at
least 80 % of `num` is accepted at its own (smaller) length. -/
def gen_attempt_loop (fb : List TestCase) (num : Nat)
    (attempts : Nat → GenAttempt) : Nat → Nat → List TestCase × Bool
  | _, 0 => (fb, true)
  | k, r + 1 =>
    match attempts k with
    | .exn =>
        if r = 0 then (fb, true) else gen_attempt_loop fb num attempts (k + 1) r
    | .empty =>
        if r = 0 then (fb, true) else gen_attempt_loop fb num attempts (k + 1) r
    | .noJson => gen_attempt_loop fb num attempts (k + 1) r
    | .parseError =>
        if r = 0 then (fb, true) else gen_attempt_loop fb num attempts (k + 1) r
    | .notList =>
        if r = 0 then (fb, true) else gen_attempt_loop fb num attempts (k + 1) r
    | .items valid =>
        if num ≤ valid.length then (valid.take num, false)
        else if min_acceptable num ≤ valid.length then (valid, false)
        else if r = 0 then (fb, true)
        else gen_attempt_loop fb num attempts (k + 1) r

/-- Batch acceptance `len(valid_cases) >= num_tests * 0.7` of
`_generate_single_batch` (exact integer form of the double comparison over
the code's range). -/
def batch_accept (num len : Nat) : Bool := 7 * num ≤ 10 * len

/-- `_generate_single_batch`: no client or any failure → full fallback;
enough valid cases (≥ 70 %) → accepted as-is (possibly more than requested,
never truncated here); otherwise the shortfall is supplemented from the
Template Test Bank immediately. -/
def generate_single_batch (shuffleSec : List Template → List Template)
    (shuffleAll : List TestCase → List TestCase) (sampleKeys : List String)
    (clientAvailable : Bool) (attempt : GenAttempt) (num : Nat)
    (has_auth : Bool) : List TestCase × Bool :=
  if !clientAvailable then
    (generate_fallback_tests shuffleSec shuffleAll sampleKeys num has_auth, true)
  else
    match attempt with
    | .items valid =>
        if batch_accept num valid.length then (valid, false)
        else
          (valid ++ generate_fallback_tests shuffleSec shuffleAll sampleKeys
            (num - valid.length) has_auth, true)
    | _ =>
        (generate_fallback_tests shuffleSec shuffleAll sampleKeys num
          has_auth, true)

/-- The `tests_per_batch` plan of `_generate_test_cases_batched`: `b` batches
of `min(40, remaining)`. -/
def tests_per_batch_aux : Nat → Nat → List Nat
  | 0, _ => []
  | b + 1, remaining =>
      min 40 remaining :: tests_per_batch_aux b (remaining - min 40 remaining)

/-- `total_batches = (num_tests + batch_size - 1) // batch_size` with
`batch_size = 40`, then the per-batch counts. -/
def tests_per_batch (num : Nat) : List Nat :=
  tests_per_batch_aux ((num + 39) / 40) num

/-- The per-batch loop: batches processed in increasing index order, each
batch's cases appended, the fallback flags OR-ed (`providers idx` is the
provider's behaviour on batch `idx`). -/
def batched_loop (shuffleSec : List Template → List Template)
    (shuffleAll : List TestCase → List TestCase) (sampleKeys : List String)
    (clientAvailable : Bool) (has_auth : Bool) (providers : Nat → GenAttempt) :
    List Nat → Nat → List TestCase → Bool → List TestCase × Bool
  | [], _, acc, flag => (acc, flag)
  | cnt :: rest, idx, acc, flag =>
      let b := generate_single_batch shuffleSec shuffleAll sampleKeys
        clientAvailable (providers idx) cnt has_auth
      batched_loop shuffleSec shuffleAll sampleKeys clientAvailable has_auth
        providers rest (idx + 1) (acc ++ b.1) (flag || b.2)

/-- `_generate_test_cases_batched`: run the batch plan, backfill any aggregate
shortfall from the Template Test Bank, truncate to exactly `num`. -/
def generate_test_cases_batched (shuffleSec : List Template → List Template)
    (shuffleAll : List TestCase → List TestCase) (sampleKeys : List String)
    (clientAvailable : Bool) (providers : Nat → GenAttempt) (num : Nat)
    (has_auth : Bool) : List TestCase × Bool :=
  let r := batched_loop shuffleSec shuffleAll sampleKeys clientAvailable
    has_auth providers (tests_per_batch num) 1 [] false
  if r.1.length < num then
    ((r.1 ++ generate_fallback_tests shuffleSec shuffleAll sampleKeys
      (num - r.1.length) has_auth).take num, true)
  else (r.1.take num, r.2)

/-- `generate_test_cases`: counts above 50 are routed to the batched path;
otherwise a missing OpenAI client goes straight to the fallback, and the
three-attempt loop runs.  `attempts` classifies the provider's behaviour on
each small-N attempt, `providers` on each batch. -/
def generate_test_cases (shuffleSec : List Template → List Template)
    (shuffleAll : List TestCase → List TestCase) (sampleKeys : List String)
    (clientAvailable : Bool) (attempts : Nat → GenAttempt)
    (providers : Nat → GenAttempt) (num : Nat) (has_auth : Bool) :
    List TestCase × Bool :=
  if 50 < num then
    generate_test_cases_batched shuffleSec shuffleAll sampleKeys
      clientAvailable providers num has_auth
  else if !clientAvailable then
    (generate_fallback_tests shuffleSec shuffleAll sampleKeys num has_auth, true)
  else
    gen_attempt_loop
      (generate_fallback_tests shuffleSec shuffleAll sampleKeys num has_auth)
      num attempts 0 3

theorem tests_per_batch_aux_length : ∀ (b r : Nat),
    (tests_per_batch_aux b r).length = b := by
  intro b
  induction b with
  | zero => intro r; rfl
  | succ b ih => intro r; simp [tests_per_batch_aux, ih]

theorem tests_per_batch_aux_le : ∀ (b r : Nat),
    ∀ x ∈ tests_per_batch_aux b r, x ≤ 40 := by
  intro b
  induction b with
  | zero => intro r x hx; simp [tests_per_batch_aux] at hx
  | succ b ih =>
      intro r x hx
      rcases List.mem_cons.1 hx with h | h
      · subst h; omega
      · exact ih _ x h

theorem tests_per_batch_aux_sum : ∀ (b r : Nat), r ≤ 40 * b →
    (tests_per_batch_aux b r).sum = r := by
  intro b
  induction b with
  | zero => intro r hr; interval_cases r; rfl
  | succ b ih =>
      intro r hr
      simp only [tests_per_batch_aux, List.sum_cons]
      rw [ih (r - min 40 r) (by omega)]
      omega

theorem tests_per_batch_sum (num : Nat) : (tests_per_batch num).sum = num :=
  tests_per_batch_aux_sum _ num (by omega)

theorem generate_test_cases_batched_length
    (shuffleSec : List Template → List Template)
    (shuffleAll : List TestCase → List TestCase) (sampleKeys : List String)
    (clientAvailable : Bool) (providers : Nat → GenAttempt) (num : Nat)
    (has_auth : Bool)
    (hs : ∀ l, (shuffleSec l).Perm l) (ha : ∀ l, (shuffleAll l).Perm l) :
    (generate_test_cases_batched shuffleSec shuffleAll sampleKeys
      clientAvailable providers num has_auth).1.length = num := by
  unfold generate_test_cases_batched
  set r := batched_loop shuffleSec shuffleAll sampleKeys clientAvailable
    has_auth providers (tests_per_batch num) 1 [] false with hr
  by_cases h : r.1.length < num
  · rw [if_pos h]
    simp only [List.length_take, List.length_append,
      generate_fallback_tests_length shuffleSec shuffleAll sampleKeys
        (num - r.1.length) has_auth hs ha]
    omega
  · rw [if_neg h]
    simp only [List.length_take]
    omega

/-- C9: for every `num > 50` (in particular 120) the batched path plans
exactly `⌈num/40⌉` batches, each of at most 40 cases, jointly covering
exactly `num` requested cases (120 → three batches of 40); and whatever any
batch's provider supplies, the final returned list has length exactly `num`,
aggregate shortfalls being backfilled from the Template Test Bank. -/
theorem C9_batched_plan_and_exact_count
    (shuffleSec : List Template → List Template)
    (shuffleAll : List TestCase → List TestCase) (sampleKeys : List String)
    (clientAvailable : Bool) (providers : Nat → GenAttempt) (num : Nat)
    (has_auth : Bool) (h50 : 50 < num)
    (hs : ∀ l, (shuffleSec l).Perm l) (ha : ∀ l, (shuffleAll l).Perm l) :
    (tests_per_batch num).length = (num + 39) / 40
    ∧ (∀ b ∈ tests_per_batch num, b ≤ 40)
    ∧ (tests_per_batch num).sum = num
    ∧ tests_per_batch 120 = [40, 40, 40]
    ∧ (generate_test_cases_batched shuffleSec shuffleAll sampleKeys
        clientAvailable providers num has_auth).1.length = num :=
  ⟨tests_per_batch_aux_length _ num, tests_per_batch_aux_le _ num,
   tests_per_batch_sum num, by decide,
   generate_test_cases_batched_length shuffleSec shuffleAll sampleKeys
     clientAvailable providers num has_auth hs ha⟩

theorem C9_batched_plan_and_exact_count_witness :
    50 < 120
    ∧ (generate_test_cases_batched id id [] false (fun _ => .exn) 120
        false).1.length = 120 :=
  ⟨by decide,
   (C9_batched_plan_and_exact_count id id [] false (fun _ => .exn) 120 false
     (by decide) (fun l => List.Perm.refl l) (fun l => List.Perm.refl l)).2.2.2.2⟩

theorem gen_attempt_loop_spec (fb : List TestCase) (num : Nat)
    (attempts : Nat → GenAttempt) (hfb : fb.length = num) (hnum : 1 ≤ num) :
    ∀ (r k : Nat),
      (min_acceptable num ≤ (gen_attempt_loop fb num attempts k r).1.length
        ∧ (gen_attempt_loop fb num attempts k r).1.length ≤ num)
      ∧ ((gen_attempt_loop fb num attempts k r).2 = true →
          (gen_attempt_loop fb num attempts k r).1.length = num) := by
  have hmin : min_acceptable num ≤ num := by
    unfold min_acceptable; omega
  have hbase : (min_acceptable num ≤ (fb, true).1.length
      ∧ (fb, true).1.length ≤ num)
      ∧ ((fb, true).2 = true → (fb, true).1.length = num) := by
    refine ⟨⟨?_, ?_⟩, fun _ => ?_⟩ <;> simp [hfb, hmin]
  intro r
  induction r with
  | zero =>
      intro k
      exact hbase
  | succ r ih =>
      intro k
      rw [gen_attempt_loop]
      cases hA : attempts k
      case exn =>
        dsimp only
        split
        · exact hbase
        · exact ih (k + 1)
      case empty =>
        dsimp only
        split
        · exact hbase
        · exact ih (k + 1)
      case noJson =>
        dsimp only
        exact ih (k + 1)
      case parseError =>
        dsimp only
        split
        · exact hbase
        · exact ih (k + 1)
      case notList =>
        dsimp only
        split
        · exact hbase
        · exact ih (k + 1)
      case items valid =>
        dsimp only
        split
        · next hge =>
            refine ⟨⟨?_, ?_⟩, fun hflag => by simp at hflag⟩ <;>
              (simp only [List.length_take]; omega)
        · next hlt =>
            split
            · next hacc =>
                exact ⟨⟨hacc, by show valid.length ≤ num; omega⟩,
                  fun hflag => by simp at hflag⟩
            · next hnacc =>
                split
                · exact hbase
                · exact ih (k + 1)

/-- C1 (amended): for every requested count `num ≥ 1` and every behaviour of
the external provider and its shuffles, `generate_test_cases` returns
between `max(1, ⌊0.8·num⌋)` and `num` test cases; the count equals `num`
whenever `num > 50` (batched path) and whenever fallback was used — it can
fall short of `num` only on the small-N acceptance branch that keeps a valid
provider list of length in `[80 %·num, num)` as-is. -/
theorem C1_generate_count_bounds (shuffleSec : List Template → List Template)
    (shuffleAll : List TestCase → List TestCase) (sampleKeys : List String)
    (clientAvailable : Bool) (attempts : Nat → GenAttempt)
    (providers : Nat → GenAttempt) (num : Nat) (has_auth : Bool)
    (hnum : 1 ≤ num)
    (hs : ∀ l, (shuffleSec l).Perm l) (ha : ∀ l, (shuffleAll l).Perm l) :
    (min_acceptable num ≤ (generate_test_cases shuffleSec shuffleAll
        sampleKeys clientAvailable attempts providers num has_auth).1.length
      ∧ (generate_test_cases shuffleSec shuffleAll sampleKeys clientAvailable
          attempts providers num has_auth).1.length ≤ num)
    ∧ (50 < num → (generate_test_cases shuffleSec shuffleAll sampleKeys
        clientAvailable attempts providers num has_auth).1.length = num)
    ∧ ((generate_test_cases shuffleSec shuffleAll sampleKeys clientAvailable
        attempts providers num has_auth).2 = true →
      (generate_test_cases shuffleSec shuffleAll sampleKeys clientAvailable
        attempts providers num has_auth).1.length = num) := by
  have hmin : min_acceptable num ≤ num := by
    unfold min_acceptable; omega
  unfold generate_test_cases
  split
  · next h50 =>
      have hb := generate_test_cases_batched_length shuffleSec shuffleAll
        sampleKeys clientAvailable providers num has_auth hs ha
      exact ⟨⟨by omega, by omega⟩, fun _ => hb, fun _ => hb⟩
  · next h50 =>
      split
      · next hnoclient =>
          have hf := generate_fallback_tests_length shuffleSec shuffleAll
            sampleKeys num has_auth hs ha
          exact ⟨⟨by simpa [hf] using hmin, by simp [hf]⟩,
            fun _ => by simp [hf], fun _ => by simp [hf]⟩
      · have hf := generate_fallback_tests_length shuffleSec shuffleAll
          sampleKeys num has_auth hs ha
        have hl := gen_attempt_loop_spec _ num attempts hf hnum 3 0
        exact ⟨hl.1, fun hc => absurd hc h50, hl.2⟩

theorem C1_generate_count_bounds_witness :
    1 ≤ 3 ∧
    (min_acceptable 3 ≤ (generate_test_cases id id [] false (fun _ => .exn)
        (fun _ => .exn) 3 false).1.length
      ∧ (generate_test_cases id id [] false (fun _ => .exn) (fun _ => .exn) 3
          false).1.length ≤ 3) :=
  ⟨by decide,
   (C1_generate_count_bounds id id [] false (fun _ => .exn) (fun _ => .exn) 3
     false (by decide) (fun l => List.Perm.refl l)
     (fun l => List.Perm.refl l)).1⟩

/-- A provider-returned case as it looks after
`_validate_and_fix_test_case`: defaults applied, single integer
`expected_status`. -/
def sampleValidatedCase : TestCase :=
  { method := "GET", endpoint := "", expected_status := .single 200,
    descr := "GET test", category := "other", validate_body := false }

/-- C1 counterexample: at `num = 50` a provider that returns 40 valid cases
on the first attempt hits the 80 %-acceptance branch
(`min_acceptable = max(1, int(50*0.8)) = 40`), and `generate_test_cases`
returns only those 40 cases — not 50. -/
theorem C1_generate_count_counterexample :
    (generate_test_cases id id [] true
      (fun _ => .items (List.replicate 40 sampleValidatedCase))
      (fun _ => .exn) 50 false).1.length = 40
    ∧ (generate_test_cases id id [] true
        (fun _ => .items (List.replicate 40 sampleValidatedCase))
        (fun _ => .exn) 50 false).1.length ≠ 50 := by
  constructor
  · rfl
  · decide
